import Mathlib

/-!
Shallow embedding of the survey-project backend (src/backend/index.js):
the JWT access gate, the role authorizer, the login handler, the entity
endpoint pipelines, the route table and the parameterized query call sites.
Machine-level JWT cryptography is abstracted: a token records which secret
it was signed with, and verification succeeds exactly when that recorded
secret matches the configured one and the token is unexpired, matching the
trust model of an unforgeable signature.
-/

namespace Survey

/-- The identity payload embedded in a session token by `jwt.sign` at
`POST /api/login`: exactly the fields id, username, role. -/
structure Payload where
  id : Nat
  username : String
  role : String
deriving Repr, DecidableEq

/-- Model of a signed JWT. `sigSecret` records the key the token was signed
with; `expiresIn` records the lifetime string passed to `jwt.sign`, and
`exp` the resulting absolute expiry instant. -/
structure Token where
  payload : Payload
  iat : Nat
  expiresIn : String
  exp : Nat
  sigSecret : String
deriving Repr, DecidableEq

/-- `jwt.sign(payload, secret, opts)`: throws when the secret is absent
(`process.env.JWT_SECRET` undefined), otherwise yields a token signed with
that secret. `dur` converts the lifetime string to a duration. -/
def jwtSign (payload : Payload) (secret : Option String) (expiresIn : String)
    (now : Nat) (dur : String → Nat) : Except String Token :=
  match secret with
  | none => .error "secretOrPrivateKey must have a value"
  | some s =>
      .ok { payload := payload, iat := now, expiresIn := expiresIn,
            exp := now + dur expiresIn, sigSecret := s }

/-- `jwt.verify` success condition: a configured secret that matches the
one the token was signed with, and a not-yet-reached expiry. -/
def jwtVerifyOk (t : Token) (secret : Option String) (now : Nat) : Bool :=
  match secret with
  | none => false
  | some s => t.sigSecret == s && decide (now < t.exp)

/-- Split a character list at every occurrence of the space character
(code point 32), keeping empty pieces, as the JS split on a single space
does. -/
def splitSpaceAux : List Char → List Char → List (List Char)
  | [], acc => [acc.reverse]
  | c :: cs, acc =>
      if c = Char.ofNat 32 then acc.reverse :: splitSpaceAux cs []
      else splitSpaceAux cs (c :: acc)

/-- The JS `header.split(...)` on a single space: every single space is a
separator and empty pieces are kept; the empty string splits to one empty
piece. -/
def jsSplitSpace (s : String) : List String :=
  (splitSpaceAux s.toList []).map List.asString

/-- Token extraction of `authenticateToken` (index.js lines 71-76): the
split of the header at spaces taken at index 1, with JS falsiness — a
missing or empty header, a header with no second space-separated part, or
an empty second part all leave no token. -/
def extractToken (authHeader : Option String) : Option String :=
  match authHeader with
  | none => none
  | some h =>
      if h = "" then none
      else match (jsSplitSpace h).get? 1 with
        | none => none
        | some t => if t = "" then none else some t

/-- Outcome of the access-gate middleware: reject with a status and
message, or forward with the decoded identity attached as `req.user`. -/
inductive GateResult where
  | reject (status : Nat) (message : String)
  | allow (user : Payload)
deriving Repr, DecidableEq

/-- `authenticateToken` middleware (index.js lines 70-85). `decode` stands
for the parsing half of `jwt.verify` (a malformed token string decodes to
none and errors like a bad signature). No database is consulted: the
definition takes no store argument, matching the source, which touches
only the header, the secret and the clock. -/
def authenticateToken (decode : String → Option Token) (secret : Option String)
    (now : Nat) (authHeader : Option String) : GateResult :=
  match extractToken authHeader with
  | none => .reject 401 "Access token required"
  | some ts =>
      match decode ts with
      | none => .reject 403 "Invalid or expired token"
      | some t =>
          if jwtVerifyOk t secret now then .allow t.payload
          else .reject 403 "Invalid or expired token"

/-- Outcome of the role-authorizer middleware: reject, or pass the request
through (unchanged — the middleware only calls `next()`). -/
inductive RoleResult where
  | reject (status : Nat) (message : String)
  | pass
deriving Repr, DecidableEq

/-- `requireRole(roles)` middleware (index.js lines 88-100): 401 when no
`req.user`, 403 when the user's role is not in the allow-list, otherwise
pass through. -/
def requireRole (roles : List String) (user : Option Payload) : RoleResult :=
  match user with
  | none => .reject 401 "Authentication required"
  | some u =>
      if roles.contains u.role then .pass
      else .reject 403 "Insufficient permissions"

/-- The environment variables the backend reads. Every field is optional,
as `process.env` entries are. -/
structure Env where
  port : Option String
  nodeEnv : Option String
  databaseUrl : Option String
  jwtSecret : Option String
  jwtExpiresIn : Option String
deriving Repr, DecidableEq

/-- Result of starting the process: `app.listen` (index.js lines 328-333)
always starts and logs four lines; no code path refuses to start. -/
inductive StartupResult where
  | started (logs : List String)
  | failedFast (reason : String)
deriving Repr, DecidableEq

/-- `app.listen(PORT, ...)` and its log lines (index.js lines 328-333). -/
def startup (env : Env) : StartupResult :=
  .started
    [ "Server running on port " ++ env.port.getD "5000",
      "Environment: " ++ env.nodeEnv.getD "development",
      "Database URL configured: " ++ toString env.databaseUrl.isSome,
      "JWT Secret configured: " ++ toString env.jwtSecret.isSome ]

/-- The secret handed to `jwt.sign`/`jwt.verify`: the raw
`process.env.JWT_SECRET`, with no fallback value anywhere in the source. -/
def signingSecret (env : Env) : Option String :=
  env.jwtSecret

/-- The lifetime string passed to `jwt.sign`: `process.env.JWT_EXPIRES_IN`
falling back under JS falsiness (absent or empty) to the one-hour default
string "1h". -/
def effectiveExpiresIn (jwtExpiresIn : Option String) : String :=
  match jwtExpiresIn with
  | none => "1h"
  | some s => if s = "" then "1h" else s

/-- A row of the users table: `SELECT * FROM users` yields id, username,
password (the stored bcrypt hash) and role. -/
structure UserRow where
  id : Nat
  username : String
  password : String
  role : String
deriving Repr, DecidableEq

/-- The login user query: `SELECT * FROM users WHERE username = $1` with
`userResult.rows[0]` — the first stored row whose username matches
exactly. -/
def lookupUser (store : List UserRow) (username : String) : Option UserRow :=
  (store.filter (fun u => u.username == username)).head?

/-- Outcome of `POST /api/login`: an error response with status and
message, or success carrying the token and the echoed user object. -/
inductive LoginResult where
  | err (status : Nat) (message : String)
  | success (token : Token) (user : Payload)
deriving Repr, DecidableEq

/-- `POST /api/login` handler (index.js lines 103-151), after the
not-empty validation of username and password has passed. `bcryptCompare`
stands for `bcrypt.compare(password, user.password)`; `dur` converts the
expiry string for `jwt.sign`. A signing failure (absent secret throws) is
caught by the surrounding try and becomes the 500 response. -/
def loginHandler (store : List UserRow) (bcryptCompare : String → String → Bool)
    (env : Env) (now : Nat) (dur : String → Nat)
    (username password : String) : LoginResult :=
  match lookupUser store username with
  | none => .err 401 "Invalid credentials"
  | some user =>
      if bcryptCompare password user.password then
        match jwtSign ⟨user.id, user.username, user.role⟩ (signingSecret env)
            (effectiveExpiresIn env.jwtExpiresIn) now dur with
        | .error _ => .err 500 "Internal server error"
        | .ok token => .success token ⟨user.id, user.username, user.role⟩
      else .err 401 "Invalid credentials"

/-- A positional SQL argument as passed in the array second argument of
`pool.query`: a string, an integer, or null (a JS undefined optional
field). -/
inductive SqlValue where
  | s (v : String)
  | i (n : Int)
  | null
deriving Repr, DecidableEq

/-- An optional request-body string forwarded as a positional argument:
undefined becomes null. -/
def optVal (v : Option String) : SqlValue :=
  match v with
  | none => .null
  | some x => .s x

/-- A parameterized statement as handed to `pool.query`: the statement
text and the positional argument list, exactly the two arguments at every
call site in index.js. -/
structure Query where
  text : String
  args : List SqlValue
deriving Repr, DecidableEq

/-- Call site of index.js lines 111-112. -/
def loginUserQuery (username : String) : Query :=
  ⟨"SELECT * FROM users WHERE username = $1", [.s username]⟩

/-- Call site of index.js line 156. -/
def companiesSelectQuery : Query :=
  ⟨"SELECT * FROM companies ORDER BY name", []⟩

/-- Call site of index.js lines 172-175. -/
def companiesInsertQuery (name : String) (industry : Option String) : Query :=
  ⟨"INSERT INTO companies (name, industry) VALUES ($1, $2) RETURNING *",
    [.s name, optVal industry]⟩

/-- Call site of index.js lines 186-191 (whitespace normalized). -/
def employeesSelectQuery : Query :=
  ⟨"SELECT e.*, c.name as company_name FROM employees e LEFT JOIN companies c ON e.company_id = c.id ORDER BY e.name",
    []⟩

/-- Call site of index.js lines 208-211. -/
def employeesInsertQuery (name email : String) (position : Option String)
    (companyId : Int) : Query :=
  ⟨"INSERT INTO employees (name, email, position, company_id) VALUES ($1, $2, $3, $4) RETURNING *",
    [.s name, .s email, optVal position, .i companyId]⟩

/-- Call site of index.js line 222. -/
def categoriesSelectQuery : Query :=
  ⟨"SELECT * FROM categories ORDER BY name", []⟩

/-- Call site of index.js lines 238-241. -/
def categoriesInsertQuery (name : String) (description : Option String) : Query :=
  ⟨"INSERT INTO categories (name, description) VALUES ($1, $2) RETURNING *",
    [.s name, optVal description]⟩

/-- Call site of index.js lines 252-257 (whitespace normalized). -/
def questionsSelectQuery : Query :=
  ⟨"SELECT q.*, c.name as category_name FROM questions q LEFT JOIN categories c ON q.category_id = c.id ORDER BY q.question_text",
    []⟩

/-- Call site of index.js lines 274-277. -/
def questionsInsertQuery (questionText questionType : String)
    (categoryId : Int) : Query :=
  ⟨"INSERT INTO questions (question_text, question_type, category_id) VALUES ($1, $2, $3) RETURNING *",
    [.s questionText, .s questionType, .i categoryId]⟩

/-- Call site of index.js line 288. -/
def testDbQuery : Query :=
  ⟨"SELECT NOW()", []⟩

/-- `POST /api/login` (index.js lines 103-151) with the store access made
explicit at the `pool.query` boundary: the awaited user query may fail,
and the surrounding catch (lines 147-150) maps any such failure to the
500 "Internal server error" response; on success the handler checks
`rows.length === 0`, takes `rows[0]`, compares the password and signs,
exactly as `loginHandler` does over the abstract table. -/
def loginHandlerDb (db : Query → Except String (List UserRow))
    (bcryptCompare : String → String → Bool) (env : Env) (now : Nat)
    (dur : String → Nat) (username password : String) : LoginResult :=
  match db (loginUserQuery username) with
  | .error _ => .err 500 "Internal server error"
  | .ok rows =>
      match rows.head? with
      | none => .err 401 "Invalid credentials"
      | some user =>
          if bcryptCompare password user.password then
            match jwtSign ⟨user.id, user.username, user.role⟩ (signingSecret env)
                (effectiveExpiresIn env.jwtExpiresIn) now dur with
            | .error _ => .err 500 "Internal server error"
            | .ok token => .success token ⟨user.id, user.username, user.role⟩
          else .err 401 "Invalid credentials"

/-- Outcome of an entity handler: an error-style JSON response (status,
message, optional raw error detail), a 201 created row, or a 200 row
list. -/
inductive HandlerResult (Row : Type) where
  | resp (status : Nat) (message : String) (errorDetail : Option String)
  | created (row : Row)
  | rows (rs : List Row)
deriving Repr, DecidableEq

/-- Request body of `POST /api/companies`. -/
structure CompanyBody where
  name : Option String
  industry : Option String
deriving Repr, DecidableEq

/-- The validator chain of `POST /api/companies`: `body(name).notEmpty()`
(fails on an absent or empty name); industry is optional. -/
def validCompanyBody (b : CompanyBody) : Bool :=
  match b.name with
  | none => false
  | some n => n ≠ ""

/-- Request body of `POST /api/employees`. -/
structure EmployeeBody where
  name : Option String
  email : Option String
  position : Option String
  companyId : Option Int
deriving Repr, DecidableEq

/-- The validator chain of `POST /api/employees`: name not empty, email
present and well-formed (`isEmail` stands for the library email check),
company_id an integer. -/
def validEmployeeBody (isEmail : String → Bool) (b : EmployeeBody) : Bool :=
  (match b.name with | none => false | some n => n ≠ "")
    && (match b.email with | none => false | some e => isEmail e)
    && b.companyId.isSome

/-- Request body of `POST /api/categories`. -/
structure CategoryBody where
  name : Option String
  description : Option String
deriving Repr, DecidableEq

/-- The validator chain of `POST /api/categories`: name not empty,
description optional. -/
def validCategoryBody (b : CategoryBody) : Bool :=
  match b.name with
  | none => false
  | some n => n ≠ ""

/-- Request body of `POST /api/questions`. -/
structure QuestionBody where
  questionText : Option String
  questionType : Option String
  categoryId : Option Int
deriving Repr, DecidableEq

/-- The validator chain of `POST /api/questions`: question_text not empty,
question_type in the text/mcq enumeration, category_id an integer. -/
def validQuestionBody (b : QuestionBody) : Bool :=
  (match b.questionText with | none => false | some t => t ≠ "")
    && (match b.questionType with
        | none => false
        | some t => t = "text" || t = "mcq")
    && b.categoryId.isSome

/-- `GET /api/companies` (index.js lines 154-162): gate, admin role, then
the select; a store failure is caught and mapped to a generic 500. -/
def getCompanies {Row : Type} (decode : String → Option Token) (secret : Option String)
    (now : Nat) (db : Query → Except String (List Row))
    (authHeader : Option String) : HandlerResult Row :=
  match authenticateToken decode secret now authHeader with
  | .reject s m => .resp s m none
  | .allow user =>
      match requireRole ["admin"] (some user) with
      | .reject s m => .resp s m none
      | .pass =>
          match db companiesSelectQuery with
          | .error _ => .resp 500 "Error fetching companies" none
          | .ok rs => .rows rs

/-- `POST /api/companies` (index.js lines 164-181): the middleware array
runs the gate first, then the admin role check, then the body validators;
the insert runs only after all three pass. -/
def postCompanies {Row : Type} (decode : String → Option Token) (secret : Option String)
    (now : Nat) (db : Query → Except String Row)
    (authHeader : Option String) (b : CompanyBody) : HandlerResult Row :=
  match authenticateToken decode secret now authHeader with
  | .reject s m => .resp s m none
  | .allow user =>
      match requireRole ["admin"] (some user) with
      | .reject s m => .resp s m none
      | .pass =>
          if validCompanyBody b then
            match db (companiesInsertQuery (b.name.getD "") b.industry) with
            | .error _ => .resp 500 "Error creating company" none
            | .ok row => .created row
          else .resp 400 "Validation failed" none

/-- `GET /api/employees` (index.js lines 184-197). -/
def getEmployees {Row : Type} (decode : String → Option Token) (secret : Option String)
    (now : Nat) (db : Query → Except String (List Row))
    (authHeader : Option String) : HandlerResult Row :=
  match authenticateToken decode secret now authHeader with
  | .reject s m => .resp s m none
  | .allow user =>
      match requireRole ["admin"] (some user) with
      | .reject s m => .resp s m none
      | .pass =>
          match db employeesSelectQuery with
          | .error _ => .resp 500 "Error fetching employees" none
          | .ok rs => .rows rs

/-- `POST /api/employees` (index.js lines 199-217): gate, admin role, body
validators, then the insert. -/
def postEmployees {Row : Type} (decode : String → Option Token) (secret : Option String)
    (now : Nat) (isEmail : String → Bool) (db : Query → Except String Row)
    (authHeader : Option String) (b : EmployeeBody) : HandlerResult Row :=
  match authenticateToken decode secret now authHeader with
  | .reject s m => .resp s m none
  | .allow user =>
      match requireRole ["admin"] (some user) with
      | .reject s m => .resp s m none
      | .pass =>
          if validEmployeeBody isEmail b then
            match db (employeesInsertQuery (b.name.getD "") (b.email.getD "")
                b.position (b.companyId.getD 0)) with
            | .error _ => .resp 500 "Error creating employee" none
            | .ok row => .created row
          else .resp 400 "Validation failed" none

/-- `GET /api/categories` (index.js lines 220-228): creator-only. -/
def getCategories {Row : Type} (decode : String → Option Token) (secret : Option String)
    (now : Nat) (db : Query → Except String (List Row))
    (authHeader : Option String) : HandlerResult Row :=
  match authenticateToken decode secret now authHeader with
  | .reject s m => .resp s m none
  | .allow user =>
      match requireRole ["creator"] (some user) with
      | .reject s m => .resp s m none
      | .pass =>
          match db categoriesSelectQuery with
          | .error _ => .resp 500 "Error fetching categories" none
          | .ok rs => .rows rs

/-- `POST /api/categories` (index.js lines 230-247): creator-only. -/
def postCategories {Row : Type} (decode : String → Option Token) (secret : Option String)
    (now : Nat) (db : Query → Except String Row)
    (authHeader : Option String) (b : CategoryBody) : HandlerResult Row :=
  match authenticateToken decode secret now authHeader with
  | .reject s m => .resp s m none
  | .allow user =>
      match requireRole ["creator"] (some user) with
      | .reject s m => .resp s m none
      | .pass =>
          if validCategoryBody b then
            match db (categoriesInsertQuery (b.name.getD "") b.description) with
            | .error _ => .resp 500 "Error creating category" none
            | .ok row => .created row
          else .resp 400 "Validation failed" none

/-- `GET /api/questions` (index.js lines 250-263): creator-only. -/
def getQuestions {Row : Type} (decode : String → Option Token) (secret : Option String)
    (now : Nat) (db : Query → Except String (List Row))
    (authHeader : Option String) : HandlerResult Row :=
  match authenticateToken decode secret now authHeader with
  | .reject s m => .resp s m none
  | .allow user =>
      match requireRole ["creator"] (some user) with
      | .reject s m => .resp s m none
      | .pass =>
          match db questionsSelectQuery with
          | .error _ => .resp 500 "Error fetching questions" none
          | .ok rs => .rows rs

/-- `POST /api/questions` (index.js lines 265-283): creator-only. -/
def postQuestions {Row : Type} (decode : String → Option Token) (secret : Option String)
    (now : Nat) (db : Query → Except String Row)
    (authHeader : Option String) (b : QuestionBody) : HandlerResult Row :=
  match authenticateToken decode secret now authHeader with
  | .reject s m => .resp s m none
  | .allow user =>
      match requireRole ["creator"] (some user) with
      | .reject s m => .resp s m none
      | .pass =>
          if validQuestionBody b then
            match db (questionsInsertQuery (b.questionText.getD "")
                (b.questionType.getD "") (b.categoryId.getD 0)) with
            | .error _ => .resp 500 "Error creating question" none
            | .ok row => .created row
          else .resp 400 "Validation failed" none

/-- `GET /api/test-db` (index.js lines 286-300): no gate, no role check;
a store failure returns 500 with the raw `error.message` included in the
response in every environment. -/
def testDbHandler {Row : Type} (db : Query → Except String Row) : HandlerResult Row :=
  match db testDbQuery with
  | .error e => .resp 500 "Database connection failed" (some e)
  | .ok row => .rows [row]

/-- The error-handling middleware (index.js lines 302-309): 500 with the
raw `err.message` only in development, a generic string otherwise. -/
def errorMiddleware (nodeEnv : Option String) (errMessage : String) :
    HandlerResult Unit :=
  .resp 500 "Internal server error"
    (some (if nodeEnv = some "development" then errMessage else "Something went wrong"))

/-- A registered Express route: method, exact path, and whether the
middleware chain contains `authenticateToken`. -/
structure Route where
  method : String
  path : String
  requiresAuth : Bool
deriving Repr, DecidableEq

/-- Every route registered in index.js, in registration order. The app
has no parameterized paths, so exact path matching is faithful; anything
else reaches the `app.use` 404 handler (lines 311-326). -/
def registeredRoutes : List Route :=
  [ ⟨"GET", "/", false⟩,
    ⟨"GET", "/health", false⟩,
    ⟨"GET", "/api/health-check", false⟩,
    ⟨"POST", "/api/login", false⟩,
    ⟨"GET", "/api/companies", true⟩,
    ⟨"POST", "/api/companies", true⟩,
    ⟨"GET", "/api/employees", true⟩,
    ⟨"POST", "/api/employees", true⟩,
    ⟨"GET", "/api/categories", true⟩,
    ⟨"POST", "/api/categories", true⟩,
    ⟨"GET", "/api/questions", true⟩,
    ⟨"POST", "/api/questions", true⟩,
    ⟨"GET", "/api/test-db", false⟩ ]

/-- Route dispatch: the first registered route matching method and path,
or none, in which case the 404 Route-not-found handler answers. -/
def dispatch (method path : String) : Option Route :=
  registeredRoutes.find? (fun r => r.method == method && r.path == path)

end Survey

namespace Survey

/-- C1: the access gate returns 401 (Unauthenticated) when no bearer token
is present, 403 (InvalidToken) when a token is present but malformed,
wrongly signed or expired, and forwards the embedded identity on a valid
token — all without any database argument. -/
theorem accessGate_cases (decode : String → Option Token) (secret : Option String)
    (now : Nat) (authHeader : Option String) :
    (extractToken authHeader = none →
      authenticateToken decode secret now authHeader = .reject 401 "Access token required")
    ∧ (∀ ts, extractToken authHeader = some ts → decode ts = none →
      authenticateToken decode secret now authHeader = .reject 403 "Invalid or expired token")
    ∧ (∀ ts t, extractToken authHeader = some ts → decode ts = some t →
      jwtVerifyOk t secret now = false →
      authenticateToken decode secret now authHeader = .reject 403 "Invalid or expired token")
    ∧ (∀ ts t, extractToken authHeader = some ts → decode ts = some t →
      jwtVerifyOk t secret now = true →
      authenticateToken decode secret now authHeader = .allow t.payload) := by
  refine ⟨?_, ?_, ?_, ?_⟩
  · intro h; simp [authenticateToken, h]
  · intro ts h hd; simp [authenticateToken, h, hd]
  · intro ts t h hd hv; simp [authenticateToken, h, hd, hv]
  · intro ts t h hd hv; simp [authenticateToken, h, hd, hv]

/-- Witness for `accessGate_cases` at a concrete missing-token request. -/
theorem accessGate_cases_witness :
    authenticateToken (fun _ => none) none 0 none = .reject 401 "Access token required" :=
  (accessGate_cases (fun _ => none) none 0 none).1 rfl

/-- C2: the role authorizer rejects 401 without an identity, 403 when the
identity's role is outside the allow-list, and passes otherwise; wiht the
admin allow-list, it rejects creator and respondent and accepts admin. -/
theorem requireRole_cases (roles : List String) (user : Option Payload) :
    (user = none → requireRole roles user = .reject 401 "Authentication required")
    ∧ (∀ u, user = some u → u.role ∉ roles →
      requireRole roles user = .reject 403 "Insufficient permissions")
    ∧ (∀ u, user = some u → u.role ∈ roles → requireRole roles user = .pass)
    ∧ (∀ u, user = some u → u.role = "creator" ∨ u.role = "respondent" →
      requireRole ["admin"] user = .reject 403 "Insufficient permissions")
    ∧ (∀ u, user = some u → u.role = "admin" → requireRole ["admin"] user = .pass) := by
  refine ⟨?_, ?_, ?_, ?_, ?_⟩
  · intro h; simp [requireRole, h]
  · intro u h hr; simp [requireRole, h, List.contains, hr]
  · intro u h hr; simp [requireRole, h, List.contains, hr]
  · intro u h hr; rcases hr with hr | hr <;> simp [requireRole, h, hr]
  · intro u h hr; simp [requireRole, h, hr]

/-- Witness for `requireRole_cases`: a creator identity is rejected by the
admin allow-list. -/
theorem requireRole_cases_witness :
    requireRole ["admin"] (some ⟨2, "carol", "creator"⟩) = .reject 403 "Insufficient permissions" :=
  (requireRole_cases ["admin"] (some ⟨2, "carol", "creator"⟩)).2.2.2.1
    ⟨2, "carol", "creator"⟩ rfl (Or.inl rfl)

/-- C3: an unknown username and a known username with a wrong password
produce the identical response — status 401, message "Invalid
credentials" — with no distinguishing signal. -/
theorem login_invalidCredentials_uniform (store : List UserRow)
    (bcryptCompare : String → String → Bool) (env : Env) (now : Nat)
    (dur : String → Nat) (username password : String) :
    (lookupUser store username = none →
      loginHandler store bcryptCompare env now dur username password =
        .err 401 "Invalid credentials")
    ∧ (∀ user, lookupUser store username = some user →
      bcryptCompare password user.password = false →
      loginHandler store bcryptCompare env now dur username password =
        .err 401 "Invalid credentials") := by
  constructor
  · intro h; simp [loginHandler, h]
  · intro user h hc; simp [loginHandler, h, hc]

/-- Witness for `login_invalidCredentials_uniform` at an empty store. -/
theorem login_invalidCredentials_uniform_witness :
    loginHandler [] (fun _ _ => false) ⟨none, none, none, none, none⟩ 0
      (fun _ => 3600) "ghost" "pw" = .err 401 "Invalid credentials" :=
  (login_invalidCredentials_uniform [] (fun _ _ => false)
    ⟨none, none, none, none, none⟩ 0 (fun _ => 3600) "ghost" "pw").1 rfl

/-- C7: a matching (username, password) pair yields a signed token whose
payload is exactly the stored id, username and role, with the lifetime
string defaulting to one hour when JWT_EXPIRES_IN is not configured. -/
theorem login_success (store : List UserRow)
    (bcryptCompare : String → String → Bool) (env : Env) (now : Nat)
    (dur : String → Nat) (username password : String) (user : UserRow)
    (s : String) :
    lookupUser store username = some user →
    bcryptCompare password user.password = true →
    env.jwtSecret = some s →
    loginHandler store bcryptCompare env now dur username password =
      .success
        ⟨⟨user.id, user.username, user.role⟩, now,
          effectiveExpiresIn env.jwtExpiresIn,
          now + dur (effectiveExpiresIn env.jwtExpiresIn), s⟩
        ⟨user.id, user.username, user.role⟩
    ∧ (env.jwtExpiresIn = none → effectiveExpiresIn env.jwtExpiresIn = "1h") := by
  intro h hc hs
  constructor
  · simp [loginHandler, h, hc, jwtSign, signingSecret, hs]
  · intro he; simp [effectiveExpiresIn, he]

/-- Witness for `login_success` at a concrete one-user store. -/
theorem login_success_witness :
    loginHandler [⟨1, "admin", "hashA", "admin"⟩] (fun _ _ => true)
      ⟨none, none, none, some "k", none⟩ 0 (fun _ => 3600) "admin" "admin123" =
      .success ⟨⟨1, "admin", "admin"⟩, 0, "1h", 3600, "k"⟩ ⟨1, "admin", "admin"⟩ :=
  (login_success [⟨1, "admin", "hashA", "admin"⟩] (fun _ _ => true)
    ⟨none, none, none, some "k", none⟩ 0 (fun _ => 3600) "admin" "admin123"
    ⟨1, "admin", "hashA", "admin"⟩ "k" rfl rfl rfl).1

/-- C4 counterexample: a `POST /api/companies` request that has no bearer
token AND an invalid body is answered with the access-gate 401, not the
validation 400 — so input validation does not run first, contrary to the
claimed stage order. -/
theorem entity_validation_not_first :
    @postCompanies Unit (fun _ => none) none 0 (fun _ => .ok ())
      none ⟨none, none⟩ = .resp 401 "Access token required" none
    ∧ (@HandlerResult.resp Unit 401 "Access token required" none ≠
      .resp 400 "Validation failed" none) := by
  exact ⟨rfl, by decide⟩

/-- C4 amended: the entity pipelines run the Access Gate first, then the
Role Authorizer, then input validation, then query execution; any failing
stage short-circuits with its own error and the result never depends on
the store (the db argument is arbitrary), so the database is not
reached. -/
theorem entity_pipeline_gate_first {Row : Type} (decode : String → Option Token)
    (secret : Option String) (now : Nat) (isEmail : String → Bool)
    (db : Query → Except String Row) (authHeader : Option String)
    (cb : CompanyBody) (eb : EmployeeBody) :
    (∀ s m, authenticateToken decode secret now authHeader = .reject s m →
      postCompanies decode secret now db authHeader cb = .resp s m none
      ∧ postEmployees decode secret now isEmail db authHeader eb = .resp s m none)
    ∧ (∀ u s m, authenticateToken decode secret now authHeader = .allow u →
      requireRole ["admin"] (some u) = .reject s m →
      postCompanies decode secret now db authHeader cb = .resp s m none
      ∧ postEmployees decode secret now isEmail db authHeader eb = .resp s m none)
    ∧ (∀ u, authenticateToken decode secret now authHeader = .allow u →
      requireRole ["admin"] (some u) = .pass →
      (validCompanyBody cb = false →
        postCompanies decode secret now db authHeader cb =
          .resp 400 "Validation failed" none)
      ∧ (validEmployeeBody isEmail eb = false →
        postEmployees decode secret now isEmail db authHeader eb =
          .resp 400 "Validation failed" none)) := by
  refine ⟨?_, ?_, ?_⟩
  · intro s m h
    exact ⟨by simp [postCompanies, h], by simp [postEmployees, h]⟩
  · intro u s m h hr
    exact ⟨by simp [postCompanies, h, hr], by simp [postEmployees, h, hr]⟩
  · intro u h hr
    constructor
    · intro hv; simp [postCompanies, h, hr, hv]
    · intro hv; simp [postEmployees, h, hr, hv]

/-- Witness for `entity_pipeline_gate_first`: a tokenless request
short-circuits both POST pipelines at the gate. -/
theorem entity_pipeline_gate_first_witness :
    @postCompanies Unit (fun _ => none) none 0 (fun _ => .ok ())
      none ⟨some "Acme", none⟩ = .resp 401 "Access token required" none
    ∧ @postEmployees Unit (fun _ => none) none 0 (fun _ => true)
      (fun _ => .ok ()) none ⟨some "Ann", some "a@b.c", none, some 1⟩ =
      .resp 401 "Access token required" none :=
  (entity_pipeline_gate_first (fun _ => none) none 0 (fun _ => true)
    (fun _ => .ok ()) none ⟨some "Acme", none⟩
    ⟨some "Ann", some "a@b.c", none, some 1⟩).1 401 "Access token required" rfl

/-- C5 counterexample: with every environment variable unset — in
particular JWT_SECRET — startup succeeds, its only mention of the secret
is the informational line "JWT Secret configured: false", and the secret
handed to signing is absent: no fail-fast and no fallback secret value
exists. -/
theorem jwtSecret_unset_counterexample :
    startup ⟨none, none, none, none, none⟩ =
      .started
        [ "Server running on port 5000",
          "Environment: development",
          "Database URL configured: false",
          "JWT Secret configured: false" ]
    ∧ signingSecret ⟨none, none, none, none, none⟩ = none := by
  exact ⟨rfl, rfl⟩

/-- C5 amended: when JWT_SECRET is unset the process still starts, logging
only the boolean line "JWT Secret configured: false"; no fallback secret
is substituted, and a login whose credentials match then fails at signing
time, caught and surfaced as the 500 internal error. -/
theorem jwtSecret_unset_behavior (env : Env) :
    env.jwtSecret = none →
    (∃ logs, startup env = .started logs ∧ "JWT Secret configured: false" ∈ logs)
    ∧ signingSecret env = none
    ∧ (∀ store bcryptCompare now dur username password user,
      lookupUser store username = some user →
      bcryptCompare password user.password = true →
      loginHandler store bcryptCompare env now dur username password =
        .err 500 "Internal server error") := by
  intro h
  refine ⟨⟨_, rfl, ?_⟩, h, ?_⟩
  · simp [h]; right; right; right; rfl
  · intro store cmp now dur username password user hl hc
    simp [loginHandler, hl, hc, jwtSign, signingSecret, h]

/-- Witness for `jwtSecret_unset_behavior`: a matching login against an
unset-secret environment yields the 500 response. -/
theorem jwtSecret_unset_behavior_witness :
    loginHandler [⟨1, "admin", "hashA", "admin"⟩] (fun _ _ => true)
      ⟨none, none, none, none, none⟩ 0 (fun _ => 3600) "admin" "admin123" =
      .err 500 "Internal server error" :=
  (jwtSecret_unset_behavior ⟨none, none, none, none, none⟩ rfl).2.2
    [⟨1, "admin", "hashA", "admin"⟩] (fun _ _ => true) 0 (fun _ => 3600)
    "admin" "admin123" ⟨1, "admin", "hashA", "admin"⟩ rfl rfl

/-- C6 counterexample: GET /api/surveys matches no registered route and so
falls through to the 404 Route-not-found handler, although the claim lists
it among the served routes. -/
theorem surveys_route_unregistered :
    dispatch "GET" "/api/surveys" = none := by
  decide

/-- C6 amended: the API serves GET and POST routes for companies,
employees, categories and questions, each with `authenticateToken` in its
chain, plus the unauthenticated login route; no surveys, survey-response
or users route is registered — those paths fall through to the 404
handler. -/
theorem routes_registered_amended :
    dispatch "GET" "/api/companies" = some ⟨"GET", "/api/companies", true⟩
    ∧ dispatch "POST" "/api/companies" = some ⟨"POST", "/api/companies", true⟩
    ∧ dispatch "GET" "/api/employees" = some ⟨"GET", "/api/employees", true⟩
    ∧ dispatch "POST" "/api/employees" = some ⟨"POST", "/api/employees", true⟩
    ∧ dispatch "GET" "/api/categories" = some ⟨"GET", "/api/categories", true⟩
    ∧ dispatch "POST" "/api/categories" = some ⟨"POST", "/api/categories", true⟩
    ∧ dispatch "GET" "/api/questions" = some ⟨"GET", "/api/questions", true⟩
    ∧ dispatch "POST" "/api/questions" = some ⟨"POST", "/api/questions", true⟩
    ∧ dispatch "POST" "/api/login" = some ⟨"POST", "/api/login", false⟩
    ∧ dispatch "POST" "/api/surveys" = none
    ∧ dispatch "GET" "/api/surveys/7" = none
    ∧ dispatch "POST" "/api/surveys/7/response" = none
    ∧ dispatch "GET" "/api/users" = none := by
  decide

/-- C8: at every parameterized call site the statement text is a constant
independent of the argument values — including a value made of SQL
metacharacters — and the arguments travel only in the positional list, in
call-site order. -/
theorem queries_parameterized (a b email1 email2 qt1 qt2 : String)
    (o1 o2 : Option String) (n1 n2 : Int) :
    (loginUserQuery a).text = (loginUserQuery b).text
    ∧ (loginUserQuery a).args = [.s a]
    ∧ (loginUserQuery "\x27 OR \x271\x27=\x271").text = (loginUserQuery "admin").text
    ∧ (companiesInsertQuery a o1).text = (companiesInsertQuery b o2).text
    ∧ (companiesInsertQuery a o1).args = [.s a, optVal o1]
    ∧ (employeesInsertQuery a email1 o1 n1).text =
      (employeesInsertQuery b email2 o2 n2).text
    ∧ (employeesInsertQuery a email1 o1 n1).args =
      [.s a, .s email1, optVal o1, .i n1]
    ∧ (categoriesInsertQuery a o1).text = (categoriesInsertQuery b o2).text
    ∧ (categoriesInsertQuery a o1).args = [.s a, optVal o1]
    ∧ (questionsInsertQuery a qt1 n1).text = (questionsInsertQuery b qt2 n2).text
    ∧ (questionsInsertQuery a qt1 n1).args = [.s a, .s qt1, .i n1] := by
  refine ⟨rfl, rfl, rfl, rfl, rfl, rfl, rfl, rfl, rfl, rfl, rfl⟩

/-- C9 counterexample: the GET /api/test-db handler catches a store
failure but answers with the raw error message attached, and it does so
independently of any environment argument — the detail is not suppressed
outside development mode. -/
theorem testDb_leaks_detail :
    @testDbHandler Unit (fun _ => .error "connect ECONNREFUSED") =
      .resp 500 "Database connection failed" (some "connect ECONNREFUSED")
    ∧ (some "connect ECONNREFUSED" ≠ (none : Option String)) := by
  exact ⟨rfl, by decide⟩

/-- C9 amended: in the login and entity handlers every store failure is
caught and mapped to a 500 response with a generic message and no error
detail — for login, a failing user query is caught by the try and becomes
the generic 500 — and the error middleware suppresses the message outside
development; the diagnostic GET /api/test-db route alone attaches the raw
error message in every mode. -/
theorem store_errors_contained {Row : Type} (decode : String → Option Token)
    (secret : Option String) (now : Nat) (isEmail : String → Bool) (e : String)
    (authHeader : Option String) (cb : CompanyBody) (eb : EmployeeBody)
    (cab : CategoryBody) (qb : QuestionBody) (u : Payload)
    (nodeEnv : Option String) (msg : String)
    (bcryptCompare : String → String → Bool) (env : Env) (dur : String → Nat)
    (username password : String) :
    (loginHandlerDb (fun _ => .error e) bcryptCompare env now dur username password =
      .err 500 "Internal server error")
    ∧ (authenticateToken decode secret now authHeader = .allow u →
      (requireRole ["admin"] (some u) = .pass →
        @getCompanies Row decode secret now (fun _ => .error e) authHeader =
          .resp 500 "Error fetching companies" none
        ∧ @getEmployees Row decode secret now (fun _ => .error e) authHeader =
          .resp 500 "Error fetching employees" none
        ∧ (validCompanyBody cb = true →
          @postCompanies Row decode secret now (fun _ => .error e) authHeader cb =
            .resp 500 "Error creating company" none)
        ∧ (validEmployeeBody isEmail eb = true →
          @postEmployees Row decode secret now isEmail (fun _ => .error e) authHeader eb =
            .resp 500 "Error creating employee" none))
      ∧ (requireRole ["creator"] (some u) = .pass →
        @getCategories Row decode secret now (fun _ => .error e) authHeader =
          .resp 500 "Error fetching categories" none
        ∧ @getQuestions Row decode secret now (fun _ => .error e) authHeader =
          .resp 500 "Error fetching questions" none
        ∧ (validCategoryBody cab = true →
          @postCategories Row decode secret now (fun _ => .error e) authHeader cab =
            .resp 500 "Error creating category" none)
        ∧ (validQuestionBody qb = true →
          @postQuestions Row decode secret now (fun _ => .error e) authHeader qb =
            .resp 500 "Error creating question" none)))
    ∧ (nodeEnv ≠ some "development" →
      errorMiddleware nodeEnv msg =
        .resp 500 "Internal server error" (some "Something went wrong")) := by
  refine ⟨rfl, ?_, ?_⟩
  · intro hg
    constructor
    · intro hr
      refine ⟨by simp [getCompanies, hg, hr], by simp [getEmployees, hg, hr], ?_, ?_⟩
      · intro hv; simp [postCompanies, hg, hr, hv]
      · intro hv; simp [postEmployees, hg, hr, hv]
    · intro hr
      refine ⟨by simp [getCategories, hg, hr], by simp [getQuestions, hg, hr], ?_, ?_⟩
      · intro hv; simp [postCategories, hg, hr, hv]
      · intro hv; simp [postQuestions, hg, hr, hv]
  · intro hn; simp [errorMiddleware, hn]

/-- Witness for `store_errors_contained`: a login attempt and an
authenticated admin request, each against a failing store, receive the
generic 500 with no detail. -/
theorem store_errors_contained_witness :
    loginHandlerDb (fun _ => .error "boom") (fun _ _ => true)
      ⟨none, none, none, some "k", none⟩ 0 (fun _ => 3600) "admin" "admin123" =
      .err 500 "Internal server error"
    ∧ @getCompanies Unit
      (fun _ => some ⟨⟨1, "admin", "admin"⟩, 0, "1h", 3600, "k"⟩) (some "k") 0
      (fun _ => .error "boom") (some "Bearer t") =
      .resp 500 "Error fetching companies" none :=
  ⟨(@store_errors_contained Unit
      (fun _ => some ⟨⟨1, "admin", "admin"⟩, 0, "1h", 3600, "k"⟩) (some "k") 0
      (fun _ => true) "boom" (some "Bearer t") ⟨some "Acme", none⟩
      ⟨some "Ann", some "a@b.c", none, some 1⟩ ⟨some "Cat", none⟩
      ⟨some "Q", some "text", some 1⟩ ⟨1, "admin", "admin"⟩ none "m"
      (fun _ _ => true) ⟨none, none, none, some "k", none⟩ (fun _ => 3600)
      "admin" "admin123").1,
    (((@store_errors_contained Unit
      (fun _ => some ⟨⟨1, "admin", "admin"⟩, 0, "1h", 3600, "k"⟩) (some "k") 0
      (fun _ => true) "boom" (some "Bearer t") ⟨some "Acme", none⟩
      ⟨some "Ann", some "a@b.c", none, some 1⟩ ⟨some "Cat", none⟩
      ⟨some "Q", some "text", some 1⟩ ⟨1, "admin", "admin"⟩ none "m"
      (fun _ _ => true) ⟨none, none, none, some "k", none⟩ (fun _ => 3600)
      "admin" "admin123").2.1 rfl).1 rfl).1⟩

/-- C10: the allow-lists are exact, with no role hierarchy: a valid
admin-role token is rejected 403 on the creator-only categories and
questions routes, and a valid creator-role token is rejected 403 on the
admin-only companies route. -/
theorem role_allowLists_exact {Row : Type} (decode : String → Option Token)
    (secret : Option String) (now : Nat)
    (dbl : Query → Except String (List Row)) (db : Query → Except String Row)
    (authHeader : Option String) (cab : CategoryBody) (qb : QuestionBody)
    (u : Payload) :
    authenticateToken decode secret now authHeader = .allow u →
    (u.role = "admin" →
      @getCategories Row decode secret now dbl authHeader =
        .resp 403 "Insufficient permissions" none
      ∧ @postCategories Row decode secret now db authHeader cab =
        .resp 403 "Insufficient permissions" none
      ∧ @getQuestions Row decode secret now dbl authHeader =
        .resp 403 "Insufficient permissions" none
      ∧ @postQuestions Row decode secret now db authHeader qb =
        .resp 403 "Insufficient permissions" none)
    ∧ (u.role = "creator" →
      @getCompanies Row decode secret now dbl authHeader =
        .resp 403 "Insufficient permissions" none) := by
  intro hg
  constructor
  · intro hr
    exact ⟨by simp [getCategories, hg, requireRole, hr],
      by simp [postCategories, hg, requireRole, hr],
      by simp [getQuestions, hg, requireRole, hr],
      by simp [postQuestions, hg, requireRole, hr]⟩
  · intro hr
    simp [getCompanies, hg, requireRole, hr]

/-- Witness for `role_allowLists_exact`: a valid admin token is refused on
GET /api/categories. -/
theorem role_allowLists_exact_witness :
    @getCategories Unit
      (fun _ => some ⟨⟨1, "admin", "admin"⟩, 0, "1h", 3600, "k"⟩) (some "k") 0
      (fun _ => .ok []) (some "Bearer t") =
      .resp 403 "Insufficient permissions" none :=
  ((@role_allowLists_exact Unit
    (fun _ => some ⟨⟨1, "admin", "admin"⟩, 0, "1h", 3600, "k"⟩) (some "k") 0
    (fun _ => .ok []) (fun _ => .ok ()) (some "Bearer t") ⟨some "Cat", none⟩
    ⟨some "Q", some "text", some 1⟩ ⟨1, "admin", "admin"⟩ rfl).1 rfl).1

end Survey
